import Mathlib

/-!
Shallow embedding of the entitlement/license-verification subsystem of
StreamHub (`src/lib/license.ts`).

The TypeScript module keeps two module-level mutable variables
(`licenseCache`, `lastVerifyTime`); here they form an explicit
`LicenseState` threaded through each operation.  The effects the code
performs — reading `config.json`, the `LICENSE_SERVER` environment
variable, and the two HTTP round trips — are modelled as explicit input
parameters describing the outcome the outside world produces
(`ConfigRead`, `VerifyOutcome`, `ActivateOutcome`).  Timestamps
(`Date.now()`) are naturals in milliseconds.
-/

namespace StreamHub

/-- `BUILT_IN_LICENSE_SERVER` constant from `license.ts`. -/
def BUILT_IN_LICENSE_SERVER : String := "https://license.flixpilot.ovh"

/-- `VERIFY_INTERVAL = 1000 * 60 * 60` (one hour, in milliseconds). -/
def VERIFY_INTERVAL : Nat := 1000 * 60 * 60

/-- JavaScript truthiness of an optional string value: `undefined` and the
empty string are falsy, every other string is truthy. -/
def truthy : Option String → Bool
  | none => false
  | some s => s != ""

/-- Outcome of reading and JSON-parsing the configuration file
(`config.json`): the file may be missing (`fs.existsSync` false), reading
or parsing may throw (`unreadable`), or it parses to an object whose
relevant fields are `licenseServer`, `license.domain`,
`license.licenseKey` (each possibly absent). -/
inductive ConfigRead where
  | missing
  | unreadable
  | parsed (licenseServer licenseDomain licenseKey : Option String)
deriving DecidableEq, Repr

/-- `getLicenseServer()`: environment variable first, then the
`licenseServer` field of `config.json` (read errors swallowed), then the
built-in address. -/
def getLicenseServer (env : Option String) (cfg : ConfigRead) : String :=
  if truthy env then env.getD ""
  else
    match cfg with
    | .parsed ls _ _ => if truthy ls then ls.getD "" else BUILT_IN_LICENSE_SERVER
    | _ => BUILT_IN_LICENSE_SERVER

/-- `LicenseConfig` interface: domain and license key from `config.json`. -/
structure LicenseConfig where
  domain : String
  licenseKey : String
deriving DecidableEq, Repr

/-- `getLicenseConfig()`: returns the domain/key pair when both
`config.license?.domain` and `config.license?.licenseKey` are truthy;
a missing file, a read/parse error, or a falsy field yields `null`. -/
def getLicenseConfig (cfg : ConfigRead) : Option LicenseConfig :=
  match cfg with
  | .parsed _ d k =>
      if truthy d && truthy k then some ⟨d.getD "", k.getD ""⟩ else none
  | _ => none

/-- `LicenseInfo` interface.  The `type` field is declared as a union of
four literals in TypeScript, but at runtime it is whatever string (or
nothing) the JSON response carried, so it is modelled as `Option String`. -/
structure LicenseInfo where
  valid : Bool
  message : String
  type : Option String := none
  maxUsers : Option Nat := none
  expiresAt : Option String := none
  customerName : Option String := none
deriving DecidableEq, Repr

/-- The module-level mutable state: `licenseCache` and `lastVerifyTime`
(initially `null` and `0`). -/
structure LicenseState where
  licenseCache : Option LicenseInfo
  lastVerifyTime : Nat
deriving DecidableEq, Repr

/-- Parsed JSON body of a successful `/api/verify` response. -/
structure VerifyData where
  valid : Bool
  message : String
  licenseType : Option String := none
  maxUsers : Option Nat := none
  expiresAt : Option String := none
  customerName : Option String := none
deriving DecidableEq, Repr

/-- Outcome of the `/api/verify` network exchange: `fetch` throwing
(transport error or the 10-second timeout), a non-ok HTTP status (the code
then throws `'授权服务器响应异常'`), `response.json()` throwing, or a
parsed body. -/
inductive VerifyOutcome where
  | transportError (msg : String)
  | httpNotOk
  | bodyUnparsable (msg : String)
  | ok (data : VerifyData)
deriving DecidableEq, Repr

/-- Whether the exchange lands in the `catch` block of `verifyLicense`. -/
def VerifyOutcome.isFailure : VerifyOutcome → Bool
  | .ok _ => false
  | _ => true

/-- The `error.message` observed in the `catch` block of `verifyLicense`. -/
def VerifyOutcome.errMessage : VerifyOutcome → String
  | .transportError m => m
  | .httpNotOk => "授权服务器响应异常"
  | .bodyUnparsable m => m
  | .ok _ => ""

/-- Message produced when no license is configured. -/
def NOT_CONFIGURED_MSG : String := "未配置授权信息，请在设置中填写授权域名和授权码"

/-- Message produced in the `catch` block of `verifyLicense` when no cache
entry exists. -/
def verifyFailedMsg (detail : String) : String := "授权验证失败: " ++ detail

/-- The body of `verifyLicense` past the cache check: read the config;
if absent, cache and return the not-configured result; otherwise perform
the exchange, caching a fresh result on success, falling back to the
existing cache on failure, or synthesizing and caching a failure result
when no cache exists. -/
def verifyRefresh (now : Nat) (cfg : ConfigRead) (net : VerifyOutcome)
    (s : LicenseState) : LicenseInfo × LicenseState :=
  match getLicenseConfig cfg with
  | none =>
      let result : LicenseInfo := { valid := false, message := NOT_CONFIGURED_MSG }
      (result, { licenseCache := some result, lastVerifyTime := now })
  | some _ =>
      match net with
      | .ok data =>
          let result : LicenseInfo :=
            { valid := data.valid, message := data.message,
              type := data.licenseType, maxUsers := data.maxUsers,
              expiresAt := data.expiresAt, customerName := data.customerName }
          (result, { licenseCache := some result, lastVerifyTime := now })
      | e =>
          match s.licenseCache with
          | some cached => (cached, s)
          | none =>
              let result : LicenseInfo :=
                { valid := false, message := verifyFailedMsg e.errMessage }
              (result, { licenseCache := some result, lastVerifyTime := now })

/-- `verifyLicense(forceRefresh)`: serve the cache when it exists, is
fresh, and no refresh is forced; otherwise refresh. -/
def verifyLicense (forceRefresh : Bool) (now : Nat) (cfg : ConfigRead)
    (net : VerifyOutcome) (s : LicenseState) : LicenseInfo × LicenseState :=
  match s.licenseCache with
  | some cached =>
      if !forceRefresh && decide (now - s.lastVerifyTime < VERIFY_INTERVAL) then
        (cached, s)
      else verifyRefresh now cfg net s
  | none => verifyRefresh now cfg net s

/-- The `proFeatures` list of `checkFeatureAccess`. -/
def proFeatures : List String := ["moviepilot", "telegram", "advanced-stats", "multi-emby"]

/-- Denial reason for tier-gated features. -/
def PRO_REQUIRED_MSG : String := "此功能需要 Pro 版授权"

/-- Return shape of `checkFeatureAccess`. -/
structure FeatureDecision where
  allowed : Bool
  reason : Option String := none
deriving DecidableEq, Repr

/-- `checkFeatureAccess(feature)`: verify (non-forcing), deny with the
status message when invalid, allow everything for lifetime/enterprise,
deny restricted features for non-pro tiers, otherwise allow. -/
def checkFeatureAccess (feature : String) (now : Nat) (cfg : ConfigRead)
    (net : VerifyOutcome) (s : LicenseState) : FeatureDecision × LicenseState :=
  let r := verifyLicense false now cfg net s
  let license := r.1
  if !license.valid then
    ({ allowed := false, reason := some license.message }, r.2)
  else if license.type == some "lifetime" || license.type == some "enterprise" then
    ({ allowed := true }, r.2)
  else if proFeatures.contains feature && license.type != some "pro" then
    ({ allowed := false, reason := some PRO_REQUIRED_MSG }, r.2)
  else
    ({ allowed := true }, r.2)

/-- Return shape of `getLicenseStatus`; `config` carries the domain. -/
structure LicenseStatus where
  configured : Bool
  valid : Bool
  info : Option LicenseInfo
  config : Option String
deriving DecidableEq, Repr

/-- `getLicenseStatus()`: unconfigured short-circuits; otherwise verify
(non-forcing) and report. -/
def getLicenseStatus (now : Nat) (cfg : ConfigRead) (net : VerifyOutcome)
    (s : LicenseState) : LicenseStatus × LicenseState :=
  match getLicenseConfig cfg with
  | none => ({ configured := false, valid := false, info := none, config := none }, s)
  | some c =>
      let r := verifyLicense false now cfg net s
      ({ configured := true, valid := r.1.valid, info := some r.1,
         config := some c.domain }, r.2)

/-- Parsed JSON body of an `/api/activate` response (no `response.ok`
check precedes `response.json()` in `activateLicense`). -/
structure ActivationData where
  success : Bool
  message : String
  licenseType : Option String := none
  maxUsers : Option Nat := none
  expiresAt : Option String := none
deriving DecidableEq, Repr

/-- Outcome of the `/api/activate` exchange: `fetch` throwing,
`response.json()` throwing, or a parsed body. -/
inductive ActivateOutcome where
  | transportError (msg : String)
  | bodyUnparsable (msg : String)
  | ok (data : ActivationData)
deriving DecidableEq, Repr

/-- Whether the activation outcome carries a truthy `success` flag. -/
def ActivateOutcome.isSuccess : ActivateOutcome → Bool
  | .ok d => d.success
  | _ => false

/-- Return shape of `activateLicense`. -/
structure ActivationResult where
  success : Bool
  message : String
  license : Option LicenseInfo := none
deriving DecidableEq, Repr

/-- Message of the unreachable empty-server branch of `activateLicense`. -/
def NO_SERVER_MSG : String := "未配置授权服务器地址，请在 config.json 或环境变量中配置 LICENSE_SERVER"

/-- Message produced in the `catch` block of `activateLicense`. -/
def activateFailedMsg (detail : String) : String := "激活失败: " ++ detail

/-- Message placed on the license object of a successful activation. -/
def LICENSE_VALID_MSG : String := "授权有效"

/-- `activateLicense(domain, licenseKey)`: resolve the server, perform
the exchange; on a truthy `data.success` clear the cache and report the
returned license; otherwise leave the state alone. -/
def activateLicense (env : Option String) (cfg : ConfigRead)
    (net : ActivateOutcome) (s : LicenseState) : ActivationResult × LicenseState :=
  let licenseServer := getLicenseServer env cfg
  if licenseServer == "" then
    ({ success := false, message := NO_SERVER_MSG }, s)
  else
    match net with
    | .ok data =>
        let s' : LicenseState :=
          if data.success then { licenseCache := none, lastVerifyTime := 0 } else s
        ({ success := data.success, message := data.message,
           license :=
             if data.success then
               some { valid := true, message := LICENSE_VALID_MSG,
                      type := data.licenseType, maxUsers := data.maxUsers,
                      expiresAt := data.expiresAt }
             else none }, s')
    | .transportError m => ({ success := false, message := activateFailedMsg m }, s)
    | .bodyUnparsable m => ({ success := false, message := activateFailedMsg m }, s)

/-- `clearLicenseCache()`: reset cache and timestamp. -/
def clearLicenseCache (_s : LicenseState) : LicenseState :=
  { licenseCache := none, lastVerifyTime := 0 }

/-! Helper lemmas shared by the claim theorems. -/

/-- Helper: a cached entry together with a fresh timestamp makes a
non-forced `verifyLicense` call return the cache and leave the state
untouched. -/
theorem verifyLicense_fresh_cache (now : Nat) (cfg : ConfigRead) (net : VerifyOutcome)
    (s : LicenseState) (cached : LicenseInfo)
    (hcache : s.licenseCache = some cached)
    (hfresh : now - s.lastVerifyTime < VERIFY_INTERVAL) :
    verifyLicense false now cfg net s = (cached, s) := by
  simp [verifyLicense, hcache, hfresh]

/-- Helper: with a configured license, a failing exchange, and an existing
cache entry, the refresh path returns the cache and leaves the state
untouched. -/
theorem verifyRefresh_failure_cached (now : Nat) (cfg : ConfigRead) (net : VerifyOutcome)
    (s : LicenseState) (cached : LicenseInfo)
    (hcache : s.licenseCache = some cached)
    (hcfg : (getLicenseConfig cfg).isSome = true)
    (hfail : net.isFailure = true) :
    verifyRefresh now cfg net s = (cached, s) := by
  obtain ⟨c, hc⟩ := Option.isSome_iff_exists.mp hcfg
  unfold verifyRefresh
  rw [hc, hcache]
  cases net with
  | ok d => simp [VerifyOutcome.isFailure] at hfail
  | transportError m => rfl
  | httpNotOk => rfl
  | bodyUnparsable m => rfl

/-- Helper: with a configured license, a failing exchange, and no cache
entry, the refresh path synthesizes, caches, and returns the failure
result. -/
theorem verifyRefresh_failure_uncached (now : Nat) (cfg : ConfigRead) (net : VerifyOutcome)
    (s : LicenseState)
    (hcache : s.licenseCache = none)
    (hcfg : (getLicenseConfig cfg).isSome = true)
    (hfail : net.isFailure = true) :
    verifyRefresh now cfg net s =
      ({ valid := false, message := verifyFailedMsg net.errMessage },
       { licenseCache := some { valid := false, message := verifyFailedMsg net.errMessage },
         lastVerifyTime := now }) := by
  obtain ⟨c, hc⟩ := Option.isSome_iff_exists.mp hcfg
  unfold verifyRefresh
  rw [hc, hcache]
  cases net with
  | ok d => simp [VerifyOutcome.isFailure] at hfail
  | transportError m => rfl
  | httpNotOk => rfl
  | bodyUnparsable m => rfl

/-- Helper: with no configured license the refresh path caches and returns
the not-configured result. -/
theorem verifyRefresh_unconfigured (now : Nat) (cfg : ConfigRead) (net : VerifyOutcome)
    (s : LicenseState) (hcfg : getLicenseConfig cfg = none) :
    verifyRefresh now cfg net s =
      ({ valid := false, message := NOT_CONFIGURED_MSG },
       { licenseCache := some { valid := false, message := NOT_CONFIGURED_MSG },
         lastVerifyTime := now }) := by
  unfold verifyRefresh
  rw [hcfg]

/-- Helper: `getLicenseServer` never yields the empty string, so the
empty-server guard of `activateLicense` is unreachable. -/
theorem getLicenseServer_ne_empty (env : Option String) (cfg : ConfigRead) :
    (getLicenseServer env cfg == "") = false := by
  unfold getLicenseServer
  by_cases henv : truthy env = true
  · rw [if_pos henv]
    cases env with
    | none => simp [truthy] at henv
    | some e =>
        simp only [truthy] at henv
        simpa using henv
  · rw [if_neg henv]
    cases cfg with
    | missing => decide
    | unreadable => decide
    | parsed ls ld lk =>
        show ((if truthy ls = true then ls.getD "" else BUILT_IN_LICENSE_SERVER) == "") = false
        by_cases hls : truthy ls = true
        · rw [if_pos hls]
          cases ls with
          | none => simp [truthy] at hls
          | some t =>
              simp only [truthy] at hls
              simpa using hls
        · rw [if_neg hls]
          decide

/-! Claim theorems. -/

/-- C1: when the configured license is present and the verification
exchange fails (transport error, timeout, non-ok HTTP status, or
unparsable body), any existing cache entry — from a prior successful or
failed attempt — is returned unchanged and neither the entry nor
`lastVerifyTime` is updated. -/
theorem C1_failure_serves_stale_cache (force : Bool) (now : Nat) (cfg : ConfigRead)
    (net : VerifyOutcome) (s : LicenseState) (cached : LicenseInfo)
    (hcache : s.licenseCache = some cached)
    (hcfg : (getLicenseConfig cfg).isSome = true)
    (hfail : net.isFailure = true) :
    verifyLicense force now cfg net s = (cached, s) := by
  have hr := verifyRefresh_failure_cached now cfg net s cached hcache hcfg hfail
  cases hcond : (!force && decide (now - s.lastVerifyTime < VERIFY_INTERVAL)) with
  | true => simp [verifyLicense, hcache, hcond]
  | false => simp [verifyLicense, hcache, hcond, hr]

/-- C1 witness: stale valid entry survives a forced refresh whose
exchange hits a transport error, with state untouched. -/
theorem C1_failure_serves_stale_cache_witness :
    verifyLicense true 10 (ConfigRead.parsed none (some "x.com") (some "K"))
      (VerifyOutcome.transportError "boom")
      ⟨some { valid := true, message := "ok" }, 5⟩
      = ({ valid := true, message := "ok" },
         ⟨some { valid := true, message := "ok" }, 5⟩) :=
  C1_failure_serves_stale_cache true 10 (ConfigRead.parsed none (some "x.com") (some "K"))
    (VerifyOutcome.transportError "boom")
    ⟨some { valid := true, message := "ok" }, 5⟩
    { valid := true, message := "ok" } rfl (by decide) (by decide)

/-- C2: with a cache entry younger than `VERIFY_INTERVAL`, a non-forced
`verifyLicense` call returns the cached result and leaves the state
untouched, for every configuration-read and network outcome (so neither is
consulted); a second non-forced call within the interval returns the same
result again. -/
theorem C2_interval_throttle (now now2 : Nat) (cfg cfg2 : ConfigRead)
    (net net2 : VerifyOutcome) (s : LicenseState) (cached : LicenseInfo)
    (hcache : s.licenseCache = some cached)
    (h1 : now - s.lastVerifyTime < VERIFY_INTERVAL)
    (h2 : now2 - s.lastVerifyTime < VERIFY_INTERVAL) :
    verifyLicense false now cfg net s = (cached, s) ∧
    verifyLicense false now2 cfg2 net2 (verifyLicense false now cfg net s).2
      = (cached, s) := by
  have hfirst := verifyLicense_fresh_cache now cfg net s cached hcache h1
  refine ⟨hfirst, ?_⟩
  rw [hfirst]
  exact verifyLicense_fresh_cache now2 cfg2 net2 s cached hcache h2

/-- C2 witness: two throttled calls with different config/network worlds
both serve the same cached entry. -/
theorem C2_interval_throttle_witness :
    verifyLicense false 5 ConfigRead.missing (VerifyOutcome.transportError "e")
      ⟨some { valid := true, message := "ok" }, 0⟩
      = ({ valid := true, message := "ok" }, ⟨some { valid := true, message := "ok" }, 0⟩) ∧
    verifyLicense false 9 ConfigRead.unreadable VerifyOutcome.httpNotOk
      (verifyLicense false 5 ConfigRead.missing (VerifyOutcome.transportError "e")
        ⟨some { valid := true, message := "ok" }, 0⟩).2
      = ({ valid := true, message := "ok" }, ⟨some { valid := true, message := "ok" }, 0⟩) :=
  C2_interval_throttle 5 9 ConfigRead.missing ConfigRead.unreadable
    (VerifyOutcome.transportError "e") VerifyOutcome.httpNotOk
    ⟨some { valid := true, message := "ok" }, 0⟩
    { valid := true, message := "ok" } rfl (by decide) (by decide)

/-- C3: for a valid cached result, the tier rules of `checkFeatureAccess`
are: on a restricted feature, tier lifetime, enterprise, and pro allow
while tier standard denies with the fixed requires-Pro reason; and tiers
lifetime and enterprise allow every feature name whatsoever. -/
theorem C3_tier_rules (feature : String) (license : LicenseInfo) (now : Nat)
    (cfg : ConfigRead) (net : VerifyOutcome) (s : LicenseState)
    (hcache : s.licenseCache = some license)
    (hfresh : now - s.lastVerifyTime < VERIFY_INTERVAL)
    (hvalid : license.valid = true) :
    (license.type = some "lifetime" →
      (checkFeatureAccess feature now cfg net s).1 = { allowed := true }) ∧
    (license.type = some "enterprise" →
      (checkFeatureAccess feature now cfg net s).1 = { allowed := true }) ∧
    (feature ∈ proFeatures → license.type = some "pro" →
      (checkFeatureAccess feature now cfg net s).1 = { allowed := true }) ∧
    (feature ∈ proFeatures → license.type = some "standard" →
      (checkFeatureAccess feature now cfg net s).1 =
        { allowed := false, reason := some PRO_REQUIRED_MSG }) := by
  have hv := verifyLicense_fresh_cache now cfg net s license hcache hfresh
  refine ⟨?_, ?_, ?_, ?_⟩
  · intro hty
    simp [checkFeatureAccess, hv, hvalid, hty]
  · intro hty
    simp [checkFeatureAccess, hv, hvalid, hty]
  · intro hmem hty
    simp [checkFeatureAccess, hv, hvalid, hty]
  · intro hmem hty
    simp [checkFeatureAccess, hv, hvalid, hty, hmem]

/-- C3 witness: a fresh valid standard-tier cache entry denies the
restricted feature moviepilot with the requires-Pro reason. -/
theorem C3_tier_rules_witness :
    (({ valid := true, message := "ok", type := some "standard" } : LicenseInfo).type
        = some "lifetime" →
      (checkFeatureAccess "moviepilot" 1 ConfigRead.missing VerifyOutcome.httpNotOk
        ⟨some { valid := true, message := "ok", type := some "standard" }, 0⟩).1
        = { allowed := true }) ∧
    (({ valid := true, message := "ok", type := some "standard" } : LicenseInfo).type
        = some "enterprise" →
      (checkFeatureAccess "moviepilot" 1 ConfigRead.missing VerifyOutcome.httpNotOk
        ⟨some { valid := true, message := "ok", type := some "standard" }, 0⟩).1
        = { allowed := true }) ∧
    ("moviepilot" ∈ proFeatures →
      ({ valid := true, message := "ok", type := some "standard" } : LicenseInfo).type
        = some "pro" →
      (checkFeatureAccess "moviepilot" 1 ConfigRead.missing VerifyOutcome.httpNotOk
        ⟨some { valid := true, message := "ok", type := some "standard" }, 0⟩).1
        = { allowed := true }) ∧
    ("moviepilot" ∈ proFeatures →
      ({ valid := true, message := "ok", type := some "standard" } : LicenseInfo).type
        = some "standard" →
      (checkFeatureAccess "moviepilot" 1 ConfigRead.missing VerifyOutcome.httpNotOk
        ⟨some { valid := true, message := "ok", type := some "standard" }, 0⟩).1
        = { allowed := false, reason := some PRO_REQUIRED_MSG }) :=
  C3_tier_rules "moviepilot" { valid := true, message := "ok", type := some "standard" }
    1 ConfigRead.missing VerifyOutcome.httpNotOk
    ⟨some { valid := true, message := "ok", type := some "standard" }, 0⟩
    rfl (by decide) rfl

/-- C10: for a valid cached result whose `type` is absent or outside the
closed tier set, `checkFeatureAccess` denies every restricted feature with
the requires-Pro reason and allows every other feature name. -/
theorem C10_unknown_tier (feature : String) (license : LicenseInfo) (now : Nat)
    (cfg : ConfigRead) (net : VerifyOutcome) (s : LicenseState)
    (hcache : s.licenseCache = some license)
    (hfresh : now - s.lastVerifyTime < VERIFY_INTERVAL)
    (hvalid : license.valid = true)
    (_hstd : license.type ≠ some "standard")
    (hpro : license.type ≠ some "pro")
    (hent : license.type ≠ some "enterprise")
    (hlife : license.type ≠ some "lifetime") :
    (feature ∈ proFeatures →
      (checkFeatureAccess feature now cfg net s).1 =
        { allowed := false, reason := some PRO_REQUIRED_MSG }) ∧
    (feature ∉ proFeatures →
      (checkFeatureAccess feature now cfg net s).1 = { allowed := true }) := by
  have hv := verifyLicense_fresh_cache now cfg net s license hcache hfresh
  constructor
  · intro hmem
    simp [checkFeatureAccess, hv, hvalid, hlife, hent, hpro, hmem]
  · intro hmem
    simp [checkFeatureAccess, hv, hvalid, hlife, hent, hpro, hmem]

/-- C10 witness: a valid cache entry with no `type` field denies the
restricted feature moviepilot with the requires-Pro reason. -/
theorem C10_unknown_tier_witness :
    ("moviepilot" ∈ proFeatures →
      (checkFeatureAccess "moviepilot" 1 ConfigRead.missing VerifyOutcome.httpNotOk
        ⟨some { valid := true, message := "ok" }, 0⟩).1 =
        { allowed := false, reason := some PRO_REQUIRED_MSG }) ∧
    ("moviepilot" ∉ proFeatures →
      (checkFeatureAccess "moviepilot" 1 ConfigRead.missing VerifyOutcome.httpNotOk
        ⟨some { valid := true, message := "ok" }, 0⟩).1 = { allowed := true }) :=
  C10_unknown_tier "moviepilot" { valid := true, message := "ok" }
    1 ConfigRead.missing VerifyOutcome.httpNotOk
    ⟨some { valid := true, message := "ok" }, 0⟩
    rfl (by decide) rfl (by decide) (by decide) (by decide) (by decide)

/-- C4 counterexample: a transport error on a forced refresh is absorbed
but is NOT converted into a result with `valid` false — the stale cached
entry with `valid` true is returned, refuting the claim that every
transport error is converted into a `valid`-false result. -/
theorem C4_counterexample :
    (VerifyOutcome.transportError "boom").isFailure = true ∧
    ((verifyLicense true 10 (ConfigRead.parsed none (some "x.com") (some "K"))
        (VerifyOutcome.transportError "boom")
        ⟨some { valid := true, message := "授权有效", type := some "pro" }, 0⟩).1).valid
      = true := by
  decide

/-- C4 amended: every error is absorbed (the operations are total
functions of the modelled outcomes) and a configuration read/parse error
behaves exactly as a missing configuration; a network-exchange failure is
converted into a `valid`-false result with a descriptive message only
when no cache entry exists — with a cache entry the cached result (whose
`valid` flag may be true) is returned instead. -/
theorem C4_amended_total_absorption (force : Bool) (feature : String) (now : Nat)
    (cfg : ConfigRead) (net : VerifyOutcome) (s : LicenseState)
    (hfail : net.isFailure = true) :
    (verifyLicense force now ConfigRead.unreadable net s
      = verifyLicense force now ConfigRead.missing net s) ∧
    (checkFeatureAccess feature now ConfigRead.unreadable net s
      = checkFeatureAccess feature now ConfigRead.missing net s) ∧
    (getLicenseStatus now ConfigRead.unreadable net s
      = getLicenseStatus now ConfigRead.missing net s) ∧
    (s.licenseCache = none → (getLicenseConfig cfg).isSome = true →
      (verifyLicense force now cfg net s).1
        = { valid := false, message := verifyFailedMsg net.errMessage }) ∧
    (∀ cached, s.licenseCache = some cached → (getLicenseConfig cfg).isSome = true →
      (verifyLicense force now cfg net s).1 = cached) := by
  refine ⟨rfl, rfl, rfl, ?_, ?_⟩
  · intro h1 h2
    have hr := verifyRefresh_failure_uncached now cfg net s h1 h2 hfail
    simp [verifyLicense, h1, hr]
  · intro cached h1 h2
    have hr := verifyRefresh_failure_cached now cfg net s cached h1 h2 hfail
    cases hcond : (!force && decide (now - s.lastVerifyTime < VERIFY_INTERVAL)) with
    | true => simp [verifyLicense, h1, hcond]
    | false => simp [verifyLicense, h1, hcond, hr]

/-- C4 witness: with no cache a non-ok HTTP status yields the synthesized
failure result; with a cache a transport error yields the cached entry. -/
theorem C4_amended_total_absorption_witness :
    ((verifyLicense false 3 (ConfigRead.parsed none (some "x.com") (some "K"))
        VerifyOutcome.httpNotOk ⟨none, 0⟩).1
      = { valid := false, message := "授权验证失败: 授权服务器响应异常" }) ∧
    ((verifyLicense false 3 (ConfigRead.parsed none (some "x.com") (some "K"))
        (VerifyOutcome.transportError "x") ⟨some { valid := true, message := "ok" }, 0⟩).1
      = { valid := true, message := "ok" }) :=
  ⟨(C4_amended_total_absorption false "f" 3
      (ConfigRead.parsed none (some "x.com") (some "K")) VerifyOutcome.httpNotOk
      ⟨none, 0⟩ (by decide)).2.2.2.1 rfl (by decide),
   (C4_amended_total_absorption false "f" 3
      (ConfigRead.parsed none (some "x.com") (some "K")) (VerifyOutcome.transportError "x")
      ⟨some { valid := true, message := "ok" }, 0⟩ (by decide)).2.2.2.2
      { valid := true, message := "ok" } rfl (by decide)⟩

/-- C5: when no cache entry exists and the configured verification
attempt fails, the call synthesizes the failure result, caches it with
the current timestamp, returns it, and `checkFeatureAccess` in that state
denies with the failure message as the reason. -/
theorem C5_first_failure_cached (force : Bool) (feature : String) (now : Nat)
    (cfg : ConfigRead) (net : VerifyOutcome) (s : LicenseState)
    (hcache : s.licenseCache = none)
    (hcfg : (getLicenseConfig cfg).isSome = true)
    (hfail : net.isFailure = true) :
    verifyLicense force now cfg net s =
      ({ valid := false, message := verifyFailedMsg net.errMessage },
       { licenseCache := some { valid := false, message := verifyFailedMsg net.errMessage },
         lastVerifyTime := now }) ∧
    (checkFeatureAccess feature now cfg net s).1 =
      { allowed := false, reason := some (verifyFailedMsg net.errMessage) } := by
  have hr := verifyRefresh_failure_uncached now cfg net s hcache hcfg hfail
  have hv1 : verifyLicense force now cfg net s =
      ({ valid := false, message := verifyFailedMsg net.errMessage },
       { licenseCache := some { valid := false, message := verifyFailedMsg net.errMessage },
         lastVerifyTime := now }) := by
    simp [verifyLicense, hcache, hr]
  have hv2 : verifyLicense false now cfg net s =
      ({ valid := false, message := verifyFailedMsg net.errMessage },
       { licenseCache := some { valid := false, message := verifyFailedMsg net.errMessage },
         lastVerifyTime := now }) := by
    simp [verifyLicense, hcache, hr]
  refine ⟨hv1, ?_⟩
  simp [checkFeatureAccess, hv2]

/-- C5 witness: first-call transport failure is synthesized, cached, and
surfaces as the denial reason for moviepilot. -/
theorem C5_first_failure_cached_witness :
    verifyLicense false 3 (ConfigRead.parsed none (some "x.com") (some "K"))
      (VerifyOutcome.transportError "fetch failed") ⟨none, 0⟩ =
      ({ valid := false, message := "授权验证失败: fetch failed" },
       { licenseCache := some { valid := false, message := "授权验证失败: fetch failed" },
         lastVerifyTime := 3 }) ∧
    (checkFeatureAccess "moviepilot" 3 (ConfigRead.parsed none (some "x.com") (some "K"))
      (VerifyOutcome.transportError "fetch failed") ⟨none, 0⟩).1 =
      { allowed := false, reason := some "授权验证失败: fetch failed" } :=
  C5_first_failure_cached false "moviepilot" 3
    (ConfigRead.parsed none (some "x.com") (some "K"))
    (VerifyOutcome.transportError "fetch failed") ⟨none, 0⟩
    rfl (by decide) (by decide)

/-- C6 counterexample: an unconfigured state (missing config file) whose
cache still holds a fresh valid pro entry lets `checkFeatureAccess` allow
the restricted feature moviepilot, refuting the claim that checkFeature
denies every feature in every unconfigured state. -/
theorem C6_counterexample :
    getLicenseConfig ConfigRead.missing = none ∧
    ((checkFeatureAccess "moviepilot" 10 ConfigRead.missing
        (VerifyOutcome.transportError "e")
        ⟨some { valid := true, message := "授权有效", type := some "pro" }, 5⟩).1).allowed
      = true := by
  decide

/-- C6 amended: with the configuration absent, any refreshing call caches
and returns the not-configured result with the current timestamp;
`checkFeatureAccess` denies every feature whenever the cache is absent or
at least one interval old (a still-fresh valid cache entry from before the
configuration disappeared is served as-is and may allow); and
`getLicenseStatus` unconditionally reports unconfigured with absent info
and config and `valid` false, leaving the state untouched. -/
theorem C6_amended_unconfigured (force : Bool) (feature : String) (now : Nat)
    (cfg : ConfigRead) (net : VerifyOutcome) (s : LicenseState)
    (hcfg : getLicenseConfig cfg = none) :
    (s.licenseCache = none ∨ VERIFY_INTERVAL ≤ now - s.lastVerifyTime ∨ force = true →
      verifyLicense force now cfg net s =
        ({ valid := false, message := NOT_CONFIGURED_MSG },
         { licenseCache := some { valid := false, message := NOT_CONFIGURED_MSG },
           lastVerifyTime := now })) ∧
    (s.licenseCache = none ∨ VERIFY_INTERVAL ≤ now - s.lastVerifyTime →
      (checkFeatureAccess feature now cfg net s).1 =
        { allowed := false, reason := some NOT_CONFIGURED_MSG }) ∧
    getLicenseStatus now cfg net s
      = ({ configured := false, valid := false, info := none, config := none }, s) := by
  have hr := verifyRefresh_unconfigured now cfg net s hcfg
  have key : ∀ f : Bool,
      s.licenseCache = none ∨ VERIFY_INTERVAL ≤ now - s.lastVerifyTime ∨ f = true →
      verifyLicense f now cfg net s =
        ({ valid := false, message := NOT_CONFIGURED_MSG },
         { licenseCache := some { valid := false, message := NOT_CONFIGURED_MSG },
           lastVerifyTime := now }) := by
    intro f h
    cases hc : s.licenseCache with
    | none => simp [verifyLicense, hc, hr]
    | some c =>
        have hcond : (!f && decide (now - s.lastVerifyTime < VERIFY_INTERVAL)) = false := by
          rcases h with h | h | h
          · simp [hc] at h
          · simp [Nat.not_lt.mpr h]
          · simp [h]
        simp [verifyLicense, hc, hcond, hr]
  refine ⟨key force, ?_, ?_⟩
  · intro h
    have hv := key false (h.imp id Or.inl)
    simp [checkFeatureAccess, hv]
  · simp [getLicenseStatus, hcfg]

/-- C6 witness: empty cache and missing configuration produce the cached
not-configured result, a moviepilot denial, and an unconfigured display
status. -/
theorem C6_amended_unconfigured_witness :
    verifyLicense true 7 ConfigRead.missing VerifyOutcome.httpNotOk ⟨none, 0⟩ =
      ({ valid := false, message := NOT_CONFIGURED_MSG },
       { licenseCache := some { valid := false, message := NOT_CONFIGURED_MSG },
         lastVerifyTime := 7 }) ∧
    (checkFeatureAccess "moviepilot" 7 ConfigRead.missing VerifyOutcome.httpNotOk
        ⟨none, 0⟩).1 = { allowed := false, reason := some NOT_CONFIGURED_MSG } ∧
    getLicenseStatus 7 ConfigRead.missing VerifyOutcome.httpNotOk ⟨none, 0⟩
      = ({ configured := false, valid := false, info := none, config := none },
         ⟨none, 0⟩) :=
  ⟨(C6_amended_unconfigured true "moviepilot" 7 ConfigRead.missing VerifyOutcome.httpNotOk
      ⟨none, 0⟩ rfl).1 (Or.inl rfl),
   (C6_amended_unconfigured true "moviepilot" 7 ConfigRead.missing VerifyOutcome.httpNotOk
      ⟨none, 0⟩ rfl).2.1 (Or.inl rfl),
   (C6_amended_unconfigured true "moviepilot" 7 ConfigRead.missing VerifyOutcome.httpNotOk
      ⟨none, 0⟩ rfl).2.2⟩

/-- C7: `clearLicenseCache` resets cache and timestamp to the empty
state; any subsequent `verifyLicense` call on the cleared state bypasses
the interval check and takes the full refresh path (fresh configuration
read and verification attempt) for every elapsed time; and a successful
activation response leaves the state cleared. -/
theorem C7_invalidate_forces_refresh (env : Option String) (cfg : ConfigRead)
    (d : ActivationData) (s s2 : LicenseState) :
    clearLicenseCache s = { licenseCache := none, lastVerifyTime := 0 } ∧
    (∀ (force : Bool) (now : Nat) (cfg2 : ConfigRead) (net : VerifyOutcome),
      verifyLicense force now cfg2 net (clearLicenseCache s2) =
        verifyRefresh now cfg2 net { licenseCache := none, lastVerifyTime := 0 }) ∧
    (d.success = true →
      (activateLicense env cfg (ActivateOutcome.ok d) s).2 =
        { licenseCache := none, lastVerifyTime := 0 }) := by
  refine ⟨rfl, fun force now cfg2 net => rfl, ?_⟩
  intro hsucc
  simp [activateLicense, getLicenseServer_ne_empty env cfg, hsucc]

/-- C7 witness: clearing a populated state empties it, the very next call
refreshes immediately, and a successful activation clears the cache. -/
theorem C7_invalidate_forces_refresh_witness :
    clearLicenseCache ⟨some { valid := true, message := "ok" }, 5⟩
      = { licenseCache := none, lastVerifyTime := 0 } ∧
    verifyLicense false 1 ConfigRead.missing VerifyOutcome.httpNotOk
      (clearLicenseCache ⟨some { valid := true, message := "ok" }, 5⟩) =
      verifyRefresh 1 ConfigRead.missing VerifyOutcome.httpNotOk
        { licenseCache := none, lastVerifyTime := 0 } ∧
    (activateLicense none ConfigRead.missing
        (ActivateOutcome.ok { success := true, message := "ok" })
        ⟨some { valid := true, message := "ok" }, 5⟩).2 =
      { licenseCache := none, lastVerifyTime := 0 } :=
  ⟨(C7_invalidate_forces_refresh none ConfigRead.missing
      { success := true, message := "ok" }
      ⟨some { valid := true, message := "ok" }, 5⟩
      ⟨some { valid := true, message := "ok" }, 5⟩).1,
   (C7_invalidate_forces_refresh none ConfigRead.missing
      { success := true, message := "ok" }
      ⟨some { valid := true, message := "ok" }, 5⟩
      ⟨some { valid := true, message := "ok" }, 5⟩).2.1
      false 1 ConfigRead.missing VerifyOutcome.httpNotOk,
   (C7_invalidate_forces_refresh none ConfigRead.missing
      { success := true, message := "ok" }
      ⟨some { valid := true, message := "ok" }, 5⟩
      ⟨some { valid := true, message := "ok" }, 5⟩).2.2 rfl⟩

/-- C8: `getLicenseServer` precedence — a non-empty environment variable
wins; otherwise a non-empty `licenseServer` field of a parsed
configuration wins; otherwise (missing file, read/parse error, or an
absent/empty field) the built-in default address is used. -/
theorem C8_server_precedence (env : Option String) (e t : String)
    (cfg : ConfigRead) (ls ld lk : Option String) :
    (env = some e → e ≠ "" → getLicenseServer env cfg = e) ∧
    (truthy env = false → cfg = ConfigRead.parsed (some t) ld lk → t ≠ "" →
      getLicenseServer env cfg = t) ∧
    (truthy env = false → (cfg = ConfigRead.missing ∨ cfg = ConfigRead.unreadable) →
      getLicenseServer env cfg = BUILT_IN_LICENSE_SERVER) ∧
    (truthy env = false → cfg = ConfigRead.parsed ls ld lk → truthy ls = false →
      getLicenseServer env cfg = BUILT_IN_LICENSE_SERVER) := by
  refine ⟨?_, ?_, ?_, ?_⟩
  · intro h1 h2
    subst h1
    have ht : truthy (some e) = true := by
      simp only [truthy]
      exact bne_iff_ne.mpr h2
    simp [getLicenseServer, ht]
  · intro h1 h2 h3
    subst h2
    have ht : truthy (some t) = true := by
      simp only [truthy]
      exact bne_iff_ne.mpr h3
    simp [getLicenseServer, h1, ht]
  · intro h1 h2
    rcases h2 with h2 | h2 <;> subst h2 <;> simp [getLicenseServer, h1]
  · intro h1 h2 h3
    subst h2
    simp [getLicenseServer, h1, h3]

/-- C8 witness: the environment variable beats a configured server; with
the environment variable empty the configured server wins; the default is
used on a read error and on an empty configured field. -/
theorem C8_server_precedence_witness :
    getLicenseServer (some "http://env") (ConfigRead.parsed (some "http://cfg") none none)
      = "http://env" ∧
    getLicenseServer (some "") (ConfigRead.parsed (some "http://cfg") none none)
      = "http://cfg" ∧
    getLicenseServer none ConfigRead.unreadable = BUILT_IN_LICENSE_SERVER ∧
    getLicenseServer none (ConfigRead.parsed (some "") none none)
      = BUILT_IN_LICENSE_SERVER :=
  ⟨(C8_server_precedence (some "http://env") "http://env" "x"
      (ConfigRead.parsed (some "http://cfg") none none) none none none).1
      rfl (by decide),
   (C8_server_precedence (some "") "x" "http://cfg"
      (ConfigRead.parsed (some "http://cfg") none none) none none none).2.1
      (by decide) rfl (by decide),
   (C8_server_precedence none "x" "x" ConfigRead.unreadable none none none).2.2.1
      (by decide) (Or.inr rfl),
   (C8_server_precedence none "x" "x" (ConfigRead.parsed (some "") none none)
      (some "") none none).2.2.2 (by decide) rfl (by decide)⟩

/-- C9: an activation whose outcome is not a success — a parsed response
with a falsy `success` flag, a transport error, or an unparsable body —
leaves the cache entry and timestamp completely unchanged. -/
theorem C9_activate_failure_frame (env : Option String) (cfg : ConfigRead)
    (net : ActivateOutcome) (s : LicenseState)
    (h : net.isSuccess = false) :
    (activateLicense env cfg net s).2 = s := by
  cases net with
  | ok d =>
      simp only [ActivateOutcome.isSuccess] at h
      simp [activateLicense, getLicenseServer_ne_empty env cfg, h]
  | transportError m => simp [activateLicense, getLicenseServer_ne_empty env cfg]
  | bodyUnparsable m => simp [activateLicense, getLicenseServer_ne_empty env cfg]

/-- C9 witness: a parsed non-success activation response leaves a
populated state untouched. -/
theorem C9_activate_failure_frame_witness :
    (activateLicense none ConfigRead.missing
        (ActivateOutcome.ok { success := false, message := "denied" })
        ⟨some { valid := true, message := "ok" }, 5⟩).2 =
      ⟨some { valid := true, message := "ok" }, 5⟩ :=
  C9_activate_failure_frame none ConfigRead.missing
    (ActivateOutcome.ok { success := false, message := "denied" })
    ⟨some { valid := true, message := "ok" }, 5⟩ (by decide)

end StreamHub
